import Mathlib

/-!
# AsteroidOS terminal launcher: `main` of `src/main.cpp`

The program is one straight-line function that drives a GUI toolkit.  The
embedding keeps the toolkit's objects as records of the properties that
`main` sets through the toolkit's interface, the toolkit's answers
(`primaryScreen()`, the loading of a locator, the value of `exec()`) as a
parameter `Toolkit`, and `main` as the list of its fifteen statements, each
one a function on an explicit machine state.  The state carries the trace
of the toolkit operations performed so far.

What the toolkit does on its own behind these calls (layout of the loaded
item tree, rendering, event dispatch) is not part of the repository and is
not modelled.
-/

namespace AsteroidTerminal

/-! ## Toolkit data -/

/-- Values of `Qt::ApplicationAttribute` (the one `main` uses and two neighbours). -/
inductive ApplicationAttribute
  | AA_EnableHighDpiScaling
  | AA_DisableHighDpiScaling
  | AA_UseHighDpiPixmaps
  deriving DecidableEq, Repr

/-- Values of `Qt::GlobalColor` (a few of them). -/
inductive GlobalColor
  | white
  | black
  | transparent
  deriving DecidableEq, Repr

/-- The enumeration `QQuickView::ResizeMode`. -/
inductive ResizeMode
  | SizeViewToRootObject
  | SizeRootObjectToView
  deriving DecidableEq, Repr

/-- The enumeration `QQuickView::Status`. -/
inductive ViewStatus
  | Null
  | Ready
  | Loading
  | Error
  deriving DecidableEq, Repr

/-- Values of `Qt::WindowState`. -/
inductive WindowState
  | WindowNoState
  | WindowMinimized
  | WindowMaximized
  | WindowFullScreen
  deriving DecidableEq, Repr

/-- A `QRect`: position and size, as C++ `int`s (never computed with here). -/
structure QRect where
  x : Int
  y : Int
  width : Int
  height : Int
  deriving DecidableEq, Repr

/-- A `QUrl`, kept as its text. -/
structure QUrl where
  text : String
  deriving DecidableEq, Repr

/-- A `QScreen`, as far as `main` looks at it: its geometry. -/
structure QScreen where
  geometry : QRect
  deriving DecidableEq, Repr

/-- The root visual item created from a loaded UI document, with the size the
document declares. -/
structure QQuickItem where
  width : Int
  height : Int
  deriving DecidableEq, Repr

/-- The `QGuiApplication` object: its identity strings and its arguments. -/
structure QGuiApplication where
  arguments : List String
  applicationName : String
  applicationDisplayName : String
  organizationName : String
  organizationDomain : String
  deriving DecidableEq, Repr

/-- The `QQuickView` object: the window properties `main` touches. -/
structure QQuickView where
  source : QUrl
  status : ViewStatus
  rootObject : Option QQuickItem
  resizeMode : ResizeMode
  color : GlobalColor
  geometry : QRect
  windowState : WindowState
  visible : Bool
  deriving DecidableEq, Repr

/-- The environment of one run: everything the toolkit decides.
`newApplication` and `newView` are the states of freshly constructed objects,
`load` resolves a locator to the root item of its document (`none`: the
locator does not resolve to a loadable document), `primaryScreen` is the
answer of `QGuiApplication::primaryScreen()` (`none`: a null pointer) and
`exec` is the value `app.exec()` returns. -/
structure Toolkit where
  newApplication : List String → QGuiApplication
  newView : QQuickView
  load : QUrl → Option QQuickItem
  primaryScreen : Option QScreen
  exec : Int

/-! ## Object-level operations -/

/-- The call `app.setApplicationName(s)`. -/
def QGuiApplication.setApplicationName (s : String) (a : QGuiApplication) : QGuiApplication :=
  { a with applicationName := s }

/-- The call `app.setApplicationDisplayName(s)`. -/
def QGuiApplication.setApplicationDisplayName (s : String) (a : QGuiApplication) :
    QGuiApplication :=
  { a with applicationDisplayName := s }

/-- The call `app.setOrganizationName(s)`. -/
def QGuiApplication.setOrganizationName (s : String) (a : QGuiApplication) : QGuiApplication :=
  { a with organizationName := s }

/-- The call `app.setOrganizationDomain(s)`. -/
def QGuiApplication.setOrganizationDomain (s : String) (a : QGuiApplication) : QGuiApplication :=
  { a with organizationDomain := s }

/-- The call `view.setSource(u)`: the locator is stored; when it loads, the view
gets the root item and is `Ready`, otherwise it has no root item and is in
`Error`.  The call itself returns nothing. -/
def QQuickView.setSource (tk : Toolkit) (u : QUrl) (v : QQuickView) : QQuickView :=
  match tk.load u with
  | some item => { v with source := u, rootObject := some item, status := .Ready }
  | none => { v with source := u, rootObject := none, status := .Error }

/-- The call `view.setResizeMode(r)`. -/
def QQuickView.setResizeMode (r : ResizeMode) (v : QQuickView) : QQuickView :=
  { v with resizeMode := r }

/-- The call `view.setColor(c)`. -/
def QQuickView.setColor (c : GlobalColor) (v : QQuickView) : QQuickView :=
  { v with color := c }

/-- The call `view.setGeometry(g)`. -/
def QQuickView.setGeometry (g : QRect) (v : QQuickView) : QQuickView :=
  { v with geometry := g }

/-- The call `view.showFullScreen()`. -/
def QQuickView.showFullScreen (v : QQuickView) : QQuickView :=
  { v with windowState := .WindowFullScreen, visible := true }

/-! ## The machine -/

/-- One toolkit operation as it appears in the trace, with the values passed
or returned. -/
inductive Op
  | setAttribute (a : ApplicationAttribute)
  | constructApplication (argv : List String)
  | setApplicationName (s : String)
  | setApplicationDisplayName (s : String)
  | setOrganizationName (s : String)
  | setOrganizationDomain (s : String)
  | constructView
  | setSource (u : QUrl)
  | setResizeMode (r : ResizeMode)
  | setColor (c : GlobalColor)
  | primaryScreen (result : Option QScreen)
  | geometry (result : QRect)
  | setGeometry (g : QRect)
  | showFullScreen
  | exec (result : Int)
  deriving DecidableEq, Repr

/-- Ways a run leaves defined behaviour. -/
inductive Fault
  | nullDereference
  | noObject
  deriving DecidableEq, Repr

/-- Where a run stands: still inside `main`, returned from it with a value, or
stopped by a fault. -/
inductive Control
  | running
  | returned (code : Int)
  | fault (f : Fault)
  deriving DecidableEq, Repr

/-- The state of a run of `main`: the process-wide attributes, the objects
`app` and `view` once constructed, the locals `screen` and `screenGeometry`
once assigned, the trace of operations performed and the control state. -/
structure Machine where
  attributes : List ApplicationAttribute
  app : Option QGuiApplication
  view : Option QQuickView
  screen : Option (Option QScreen)
  screenGeometry : Option QRect
  trace : List Op
  control : Control
  deriving DecidableEq, Repr

/-- The state on entry to `main`. -/
def Machine.start : Machine :=
  { attributes := [], app := none, view := none, screen := none, screenGeometry := none,
    trace := [], control := .running }

/-- A method call on `app`, logged as `op`. -/
def onApp (op : Op) (f : QGuiApplication → QGuiApplication) (m : Machine) : Machine :=
  match m.app with
  | some a => { m with app := some (f a), trace := m.trace ++ [op] }
  | none => { m with control := .fault .noObject }

/-- A method call on `view`, logged as `op`. -/
def onView (op : Op) (f : QQuickView → QQuickView) (m : Machine) : Machine :=
  match m.view with
  | some v => { m with view := some (f v), trace := m.trace ++ [op] }
  | none => { m with control := .fault .noObject }

/-- Line 29: `QGuiApplication::setAttribute(a);`. -/
def stmtSetAttribute (a : ApplicationAttribute) (m : Machine) : Machine :=
  { m with attributes := m.attributes ++ [a], trace := m.trace ++ [.setAttribute a] }

/-- Line 30: `QGuiApplication app(argc, argv);`. -/
def stmtConstructApp (tk : Toolkit) (argv : List String) (m : Machine) : Machine :=
  { m with app := some (tk.newApplication argv), trace := m.trace ++ [.constructApplication argv] }

/-- Line 37: `QQuickView view;`. -/
def stmtConstructView (tk : Toolkit) (m : Machine) : Machine :=
  { m with view := some tk.newView, trace := m.trace ++ [.constructView] }

/-- Line 45: `QScreen *screen = QGuiApplication::primaryScreen();`. -/
def stmtPrimaryScreen (tk : Toolkit) (m : Machine) : Machine :=
  { m with screen := some tk.primaryScreen, trace := m.trace ++ [.primaryScreen tk.primaryScreen] }

/-- Line 46: `QRect screenGeometry = screen->geometry();`.  The pointer is
dereferenced as it is; a null pointer is a fault. -/
def stmtScreenGeometry (m : Machine) : Machine :=
  match m.screen with
  | some (some s) =>
      { m with screenGeometry := some s.geometry, trace := m.trace ++ [.geometry s.geometry] }
  | some none => { m with control := .fault .nullDereference }
  | none => { m with control := .fault .noObject }

/-- Line 49: `view.setGeometry(screenGeometry);`. -/
def stmtSetGeometry (m : Machine) : Machine :=
  match m.screenGeometry with
  | some g => onView (.setGeometry g) (QQuickView.setGeometry g) m
  | none => { m with control := .fault .noObject }

/-- Line 52: `return app.exec();`. -/
def stmtReturnExec (tk : Toolkit) (m : Machine) : Machine :=
  match m.app with
  | some _ => { m with trace := m.trace ++ [.exec tk.exec], control := .returned tk.exec }
  | none => { m with control := .fault .noObject }

/-- The locator of the bundled UI document. -/
def mainQml : QUrl := ⟨"qrc:/main.qml"⟩

/-- The body of `main`, statement by statement (source lines 29 to 52). -/
def mainBody (tk : Toolkit) (argv : List String) : List (Machine → Machine) :=
  [ stmtSetAttribute .AA_EnableHighDpiScaling,
    stmtConstructApp tk argv,
    onApp (.setApplicationName "Terminal") (QGuiApplication.setApplicationName "Terminal"),
    onApp (.setApplicationDisplayName "Terminal")
      (QGuiApplication.setApplicationDisplayName "Terminal"),
    onApp (.setOrganizationName "AsteroidOS") (QGuiApplication.setOrganizationName "AsteroidOS"),
    onApp (.setOrganizationDomain "asteroidos.org")
      (QGuiApplication.setOrganizationDomain "asteroidos.org"),
    stmtConstructView tk,
    onView (.setSource mainQml) (QQuickView.setSource tk mainQml),
    onView (.setResizeMode .SizeRootObjectToView)
      (QQuickView.setResizeMode .SizeRootObjectToView),
    onView (.setColor .black) (QQuickView.setColor .black),
    stmtPrimaryScreen tk,
    stmtScreenGeometry,
    stmtSetGeometry,
    onView .showFullScreen QQuickView.showFullScreen,
    stmtReturnExec tk ]

/-- One statement, executed only while the run is still inside `main`. -/
def stepWith (m : Machine) (f : Machine → Machine) : Machine :=
  match m.control with
  | .running => f m
  | _ => m

/-- Runs a list of statements in order. -/
def runStmts (fs : List (Machine → Machine)) (m : Machine) : Machine :=
  fs.foldl stepWith m

/-- The run of `main` up to and including its `n`-th statement. -/
def mainAfter (n : Nat) (tk : Toolkit) (argv : List String) : Machine :=
  runStmts ((mainBody tk argv).take n) Machine.start

/-- The whole run of `main`. -/
def main (tk : Toolkit) (argv : List String) : Machine :=
  runStmts (mainBody tk argv) Machine.start

/-- The state in which `app.exec()` is entered: all statements but the last
have been executed. -/
def atEventLoopEntry (tk : Toolkit) (argv : List String) : Machine :=
  mainAfter 14 tk argv

/-- The identity strings of an application object: name, display name,
organization name, organization domain. -/
def QGuiApplication.identity (a : QGuiApplication) : String × String × String × String :=
  (a.applicationName, a.applicationDisplayName, a.organizationName, a.organizationDomain)

/-- The application object as `main` leaves it after the identity setup. -/
def appOf (tk : Toolkit) (argv : List String) : QGuiApplication :=
  { tk.newApplication argv with
    applicationName := "Terminal", applicationDisplayName := "Terminal",
    organizationName := "AsteroidOS", organizationDomain := "asteroidos.org" }

/-! ## Sample environments -/

/-- A freshly constructed view, with the toolkit's usual initial values. -/
def sampleView : QQuickView :=
  { source := ⟨""⟩, status := .Null, rootObject := none, resizeMode := .SizeViewToRootObject,
    color := .white, geometry := ⟨0, 0, 160, 160⟩, windowState := .WindowNoState,
    visible := false }

/-- A freshly constructed application for the given arguments. -/
def sampleApp (argv : List String) : QGuiApplication :=
  { arguments := argv, applicationName := argv.headD "", applicationDisplayName := "",
    organizationName := "", organizationDomain := "" }

/-- A watch with a 400 x 400 screen on which the bundled document loads. -/
def watchToolkit : Toolkit :=
  { newApplication := sampleApp, newView := sampleView,
    load := fun u => if u = mainQml then some ⟨320, 320⟩ else none,
    primaryScreen := some ⟨⟨0, 0, 400, 400⟩⟩, exec := 0 }

/-- The same watch, on which no locator resolves. -/
def brokenResourceToolkit : Toolkit :=
  { watchToolkit with load := fun _ => none }

/-- An environment without any screen: `primaryScreen()` is null. -/
def headlessToolkit : Toolkit :=
  { watchToolkit with primaryScreen := none }

/-! ## Observations on machines and traces -/

/-- The rectangle an operation assigns to the window, if it is `setGeometry`. -/
def Op.assignedGeometry : Op → Option QRect
  | .setGeometry g => some g
  | _ => none

/-- The rectangle an operation reads from a screen, if it is `geometry`. -/
def Op.queriedGeometry : Op → Option QRect
  | .geometry g => some g
  | _ => none

/-- The screen pointer an operation obtains, if it is `primaryScreen`. -/
def Op.queriedScreen : Op → Option (Option QScreen)
  | .primaryScreen r => some r
  | _ => none

/-- The identity strings of the application object of a machine state, once
the object exists. -/
def identityOf (m : Machine) : Option (String × String × String × String) :=
  m.app.map QGuiApplication.identity

/-- The view as `main` leaves it when the window geometry assigned is `g`. -/
def viewOf (tk : Toolkit) (g : QRect) : QQuickView :=
  (((((tk.newView).setSource tk mainQml).setResizeMode .SizeRootObjectToView).setColor
    .black).setGeometry g).showFullScreen

/-- The trace of a run that gets through all of `main` with screen `s`. -/
def fullTrace (tk : Toolkit) (argv : List String) (s : QScreen) : List Op :=
  [.setAttribute .AA_EnableHighDpiScaling, .constructApplication argv,
    .setApplicationName "Terminal", .setApplicationDisplayName "Terminal",
    .setOrganizationName "AsteroidOS", .setOrganizationDomain "asteroidos.org",
    .constructView, .setSource mainQml, .setResizeMode .SizeRootObjectToView,
    .setColor .black, .primaryScreen (some s), .geometry s.geometry,
    .setGeometry s.geometry, .showFullScreen, .exec tk.exec]

/-! ## Closed forms of the run -/

theorem main_of_screen (tk : Toolkit) (argv : List String) (s : QScreen)
    (h : tk.primaryScreen = some s) :
    main tk argv =
      { attributes := [.AA_EnableHighDpiScaling],
        app := some (appOf tk argv),
        view := some (viewOf tk s.geometry),
        screen := some (some s),
        screenGeometry := some s.geometry,
        trace := fullTrace tk argv s,
        control := .returned tk.exec } := by
  simp [main, atEventLoopEntry, mainAfter, runStmts, mainBody, stepWith, Machine.start,
    stmtSetAttribute, stmtConstructApp, onApp, onView, stmtConstructView, stmtPrimaryScreen,
    stmtScreenGeometry, stmtSetGeometry, stmtReturnExec, appOf, viewOf, fullTrace,
    QGuiApplication.setApplicationName, QGuiApplication.setApplicationDisplayName,
    QGuiApplication.setOrganizationName, QGuiApplication.setOrganizationDomain, h]

theorem entry_of_screen (tk : Toolkit) (argv : List String) (s : QScreen)
    (h : tk.primaryScreen = some s) :
    atEventLoopEntry tk argv =
      { attributes := [.AA_EnableHighDpiScaling],
        app := some (appOf tk argv),
        view := some (viewOf tk s.geometry),
        screen := some (some s),
        screenGeometry := some s.geometry,
        trace := (fullTrace tk argv s).take 14,
        control := .running } := by
  simp [main, atEventLoopEntry, mainAfter, runStmts, mainBody, stepWith, Machine.start,
    stmtSetAttribute, stmtConstructApp, onApp, onView, stmtConstructView, stmtPrimaryScreen,
    stmtScreenGeometry, stmtSetGeometry, stmtReturnExec, appOf, viewOf, fullTrace,
    QGuiApplication.setApplicationName, QGuiApplication.setApplicationDisplayName,
    QGuiApplication.setOrganizationName, QGuiApplication.setOrganizationDomain, h]

theorem main_of_no_screen (tk : Toolkit) (argv : List String) (h : tk.primaryScreen = none) :
    (main tk argv).control = .fault .nullDereference := by
  simp [main, atEventLoopEntry, mainAfter, runStmts, mainBody, stepWith, Machine.start,
    stmtSetAttribute, stmtConstructApp, onApp, onView, stmtConstructView, stmtPrimaryScreen,
    stmtScreenGeometry, stmtSetGeometry, stmtReturnExec, appOf, viewOf, fullTrace,
    QGuiApplication.setApplicationName, QGuiApplication.setApplicationDisplayName,
    QGuiApplication.setOrganizationName, QGuiApplication.setOrganizationDomain, h]

theorem mainAfter_of_le (tk : Toolkit) (argv : List String) (n : Nat) (hn : 15 ≤ n) :
    mainAfter n tk argv = main tk argv := by
  have hlen : (mainBody tk argv).length ≤ n := by simpa [mainBody] using hn
  simp [mainAfter, main, List.take_of_length_le hlen]

theorem mainAfter_not_returned (tk : Toolkit) (argv : List String) (n : Nat) (hn : n < 15)
    (code : Int) : (mainAfter n tk argv).control ≠ .returned code := by
  interval_cases n <;> cases h : tk.primaryScreen <;>
  simp [main, atEventLoopEntry, mainAfter, runStmts, mainBody, stepWith, Machine.start,
    stmtSetAttribute, stmtConstructApp, onApp, onView, stmtConstructView, stmtPrimaryScreen,
    stmtScreenGeometry, stmtSetGeometry, stmtReturnExec, appOf, viewOf, fullTrace,
    QGuiApplication.setApplicationName, QGuiApplication.setApplicationDisplayName,
    QGuiApplication.setOrganizationName, QGuiApplication.setOrganizationDomain, h]

theorem mainAfter_no_fault (tk : Toolkit) (argv : List String) (s : QScreen)
    (h : tk.primaryScreen = some s) (n : Nat) (f : Fault) :
    (mainAfter n tk argv).control ≠ .fault f := by
  rcases Nat.lt_or_ge n 15 with hn | hn
  · interval_cases n <;>
    simp [main, atEventLoopEntry, mainAfter, runStmts, mainBody, stepWith, Machine.start,
      stmtSetAttribute, stmtConstructApp, onApp, onView, stmtConstructView, stmtPrimaryScreen,
      stmtScreenGeometry, stmtSetGeometry, stmtReturnExec, appOf, viewOf, fullTrace,
      QGuiApplication.setApplicationName, QGuiApplication.setApplicationDisplayName,
      QGuiApplication.setOrganizationName, QGuiApplication.setOrganizationDomain, h]
  · rw [mainAfter_of_le tk argv n hn, main_of_screen tk argv s h]
    simp

/-! ## The identity strings are a frame of the later statements -/

theorem identityOf_after_setup (tk : Toolkit) (argv : List String) :
    identityOf (mainAfter 6 tk argv) =
      some ("Terminal", "Terminal", "AsteroidOS", "asteroidos.org") := by
  simp [identityOf, QGuiApplication.identity, mainAfter, runStmts, mainBody, stepWith,
    Machine.start, stmtSetAttribute, stmtConstructApp, onApp,
    QGuiApplication.setApplicationName, QGuiApplication.setApplicationDisplayName,
    QGuiApplication.setOrganizationName, QGuiApplication.setOrganizationDomain]

theorem onView_keeps_identity (op : Op) (g : QQuickView → QQuickView) (m : Machine) :
    identityOf (onView op g m) = identityOf m := by
  unfold onView
  cases m.view <;> rfl

theorem later_stmt_keeps_identity (tk : Toolkit) (argv : List String) (f : Machine → Machine)
    (hf : f ∈ (mainBody tk argv).drop 6) (m : Machine) : identityOf (f m) = identityOf m := by
  simp only [mainBody, List.drop_succ_cons, List.drop_zero, List.mem_cons, List.mem_singleton,
    List.not_mem_nil, or_false] at hf
  rcases hf with rfl | rfl | rfl | rfl | rfl | rfl | rfl | rfl | rfl
  · rfl
  · exact onView_keeps_identity _ _ m
  · exact onView_keeps_identity _ _ m
  · exact onView_keeps_identity _ _ m
  · rfl
  · unfold stmtScreenGeometry
    rcases m.screen with _ | _ | s <;> rfl
  · unfold stmtSetGeometry
    cases m.screenGeometry
    · rfl
    · exact onView_keeps_identity _ _ m
  · exact onView_keeps_identity _ _ m
  · unfold stmtReturnExec
    cases hm : m.app <;> simp [identityOf, hm]

theorem runStmts_keeps_identity (fs : List (Machine → Machine))
    (h : ∀ f ∈ fs, ∀ m, identityOf (f m) = identityOf m) (m : Machine) :
    identityOf (runStmts fs m) = identityOf m := by
  induction fs generalizing m with
  | nil => rfl
  | cons f fs ih =>
    have hstep : identityOf (stepWith m f) = identityOf m := by
      unfold stepWith
      split
      · exact h f (List.mem_cons_self f fs) m
      · rfl
    have htail : identityOf (runStmts fs (stepWith m f)) = identityOf (stepWith m f) :=
      ih (fun g hg => h g (List.mem_cons_of_mem f hg)) (stepWith m f)
    show identityOf (runStmts fs (stepWith m f)) = identityOf m
    rw [htail, hstep]

theorem mainAfter_split (tk : Toolkit) (argv : List String) (k : Nat) :
    mainAfter (6 + k) tk argv =
      runStmts (((mainBody tk argv).drop 6).take k) (mainAfter 6 tk argv) := by
  simp only [mainAfter, runStmts, List.take_add, List.foldl_append]

/-! ## The claims -/

/-- Claim C1. For every geometry `g` that the toolkit reports for the primary
screen, the one rectangle `main` assigns to the window is `g`, and on entry
to the event loop the window's geometry is `g`: position and size unchanged
between the query and the assignment. -/
theorem window_geometry_is_screen_geometry (tk : Toolkit) (argv : List String) (g : QRect)
    (h : tk.primaryScreen = some ⟨g⟩) :
    (main tk argv).trace.filterMap Op.assignedGeometry = [g] ∧
    (atEventLoopEntry tk argv).control = .running ∧
    (atEventLoopEntry tk argv).view.map QQuickView.geometry = some g := by
  refine ⟨?_, ?_, ?_⟩
  · rw [main_of_screen tk argv ⟨g⟩ h]
    simp [fullTrace, Op.assignedGeometry]
  · rw [entry_of_screen tk argv ⟨g⟩ h]
  · rw [entry_of_screen tk argv ⟨g⟩ h]
    simp [viewOf, QQuickView.showFullScreen, QQuickView.setGeometry]

theorem window_geometry_is_screen_geometry_witness :
    watchToolkit.primaryScreen = some ⟨⟨0, 0, 400, 400⟩⟩ ∧
    ((main watchToolkit ["terminal"]).trace.filterMap Op.assignedGeometry = [⟨0, 0, 400, 400⟩] ∧
     (atEventLoopEntry watchToolkit ["terminal"]).control = .running ∧
     (atEventLoopEntry watchToolkit ["terminal"]).view.map QQuickView.geometry =
       some ⟨0, 0, 400, 400⟩) :=
  ⟨rfl, window_geometry_is_screen_geometry watchToolkit ["terminal"] ⟨0, 0, 400, 400⟩ rfl⟩

/-- Claim C2, as stated, fails: on a watch where `qrc:/main.qml` does not
resolve, `main` still shows the window (which has no root item) full-screen,
enters the event loop and returns 0. -/
theorem missing_document_counterexample :
    brokenResourceToolkit.load mainQml = none ∧
    (main brokenResourceToolkit ["terminal"]).control = .returned 0 ∧
    Op.showFullScreen ∈ (main brokenResourceToolkit ["terminal"]).trace ∧
    Op.exec 0 ∈ (main brokenResourceToolkit ["terminal"]).trace ∧
    (main brokenResourceToolkit ["terminal"]).view.map QQuickView.rootObject = some none ∧
    (main brokenResourceToolkit ["terminal"]).view.map QQuickView.visible = some true := by
  have hm := main_of_screen brokenResourceToolkit ["terminal"] ⟨⟨0, 0, 400, 400⟩⟩ rfl
  refine ⟨rfl, ?_, ?_, ?_, ?_, ?_⟩
  · rw [hm]; rfl
  · rw [hm]; simp [fullTrace]
  · rw [hm]; simp [fullTrace]; rfl
  · rw [hm]; rfl
  · rw [hm]; rfl

/-- Claim C2, amended. When `qrc:/main.qml` does not resolve and a primary
screen exists, `main` does not stop: it reaches the event loop with the view
in `Error`, without a root item, visible and in state `FullScreen`; its
trace is the full sequence of fifteen operations, ending with
`showFullScreen` and the event loop; and it returns the event loop's
value. -/
theorem missing_document_still_shown (tk : Toolkit) (argv : List String) (s : QScreen)
    (hload : tk.load mainQml = none) (hscr : tk.primaryScreen = some s) :
    (∃ v, (atEventLoopEntry tk argv).view = some v ∧ v.status = .Error ∧ v.rootObject = none ∧
      v.windowState = .WindowFullScreen ∧ v.visible = true) ∧
    (atEventLoopEntry tk argv).control = .running ∧
    (main tk argv).trace = fullTrace tk argv s ∧
    (main tk argv).control = .returned tk.exec := by
  refine ⟨⟨viewOf tk s.geometry, ?_, ?_, ?_, ?_, ?_⟩, ?_, ?_, ?_⟩
  · rw [entry_of_screen tk argv s hscr]
  · simp [viewOf, QQuickView.showFullScreen, QQuickView.setGeometry, QQuickView.setColor,
      QQuickView.setResizeMode, QQuickView.setSource, hload]
  · simp [viewOf, QQuickView.showFullScreen, QQuickView.setGeometry, QQuickView.setColor,
      QQuickView.setResizeMode, QQuickView.setSource, hload]
  · simp [viewOf, QQuickView.showFullScreen]
  · simp [viewOf, QQuickView.showFullScreen]
  · rw [entry_of_screen tk argv s hscr]
  · rw [main_of_screen tk argv s hscr]
  · rw [main_of_screen tk argv s hscr]

theorem missing_document_still_shown_witness :
    brokenResourceToolkit.load mainQml = none ∧
    brokenResourceToolkit.primaryScreen = some ⟨⟨0, 0, 400, 400⟩⟩ ∧
    ((∃ v, (atEventLoopEntry brokenResourceToolkit []).view = some v ∧ v.status = .Error ∧
        v.rootObject = none ∧ v.windowState = .WindowFullScreen ∧ v.visible = true) ∧
      (atEventLoopEntry brokenResourceToolkit []).control = .running ∧
      (main brokenResourceToolkit []).trace =
        fullTrace brokenResourceToolkit [] ⟨⟨0, 0, 400, 400⟩⟩ ∧
      (main brokenResourceToolkit []).control = .returned brokenResourceToolkit.exec) :=
  ⟨rfl, rfl, missing_document_still_shown brokenResourceToolkit [] ⟨⟨0, 0, 400, 400⟩⟩ rfl rfl⟩

/-- Claim C3. Whenever a primary screen exists `main` returns, and its value
is the value of `app.exec()`; in every environment, a run that has returned
has executed all fifteen statements, ended with the event loop, and returned
the event loop's value: there is no other return and no early one. -/
theorem main_returns_event_loop_value (tk : Toolkit) (argv : List String) :
    (∀ s, tk.primaryScreen = some s → (main tk argv).control = .returned tk.exec) ∧
    (∀ n code, (mainAfter n tk argv).control = .returned code →
      code = tk.exec ∧ 15 ≤ n ∧
        (mainAfter n tk argv).trace.getLast? = some (.exec tk.exec)) := by
  refine ⟨fun s h => by rw [main_of_screen tk argv s h], ?_⟩
  intro n code hret
  rcases Nat.lt_or_ge n 15 with hn | hn
  · exact absurd hret (mainAfter_not_returned tk argv n hn code)
  · rw [mainAfter_of_le tk argv n hn] at hret ⊢
    cases hps : tk.primaryScreen with
    | none =>
      rw [main_of_no_screen tk argv hps] at hret
      cases hret
    | some s =>
      rw [main_of_screen tk argv s hps] at hret ⊢
      simp only [Control.returned.injEq] at hret
      exact ⟨hret.symm, hn, by simp [fullTrace]⟩

/-- With a loadable document and a primary screen, `main` reaches the event
loop without a fault at any point; on entry to the loop the view's source is
the locator, its root item is the loaded document, it is `Ready`, visible
and in state `FullScreen`; `showFullScreen` is the last operation before
`exec`, and `main` returns the event loop's value. -/
theorem valid_document_reaches_full_screen (tk : Toolkit) (argv : List String)
    (item : QQuickItem) (s : QScreen)
    (hload : tk.load mainQml = some item) (hscr : tk.primaryScreen = some s) :
    (∀ n f, (mainAfter n tk argv).control ≠ .fault f) ∧
    (atEventLoopEntry tk argv).control = .running ∧
    (∃ v, (atEventLoopEntry tk argv).view = some v ∧ v.source = mainQml ∧
      v.rootObject = some item ∧ v.status = .Ready ∧
      v.windowState = .WindowFullScreen ∧ v.visible = true) ∧
    (atEventLoopEntry tk argv).trace.getLast? = some .showFullScreen ∧
    (main tk argv).trace = (atEventLoopEntry tk argv).trace ++ [.exec tk.exec] ∧
    (main tk argv).control = .returned tk.exec := by
  refine ⟨fun n f => mainAfter_no_fault tk argv s hscr n f, ?_,
    ⟨viewOf tk s.geometry, ?_, ?_, ?_, ?_, ?_, ?_⟩, ?_, ?_, ?_⟩
  · rw [entry_of_screen tk argv s hscr]
  · rw [entry_of_screen tk argv s hscr]
  · simp [viewOf, QQuickView.showFullScreen, QQuickView.setGeometry, QQuickView.setColor,
      QQuickView.setResizeMode, QQuickView.setSource, hload]
  · simp [viewOf, QQuickView.showFullScreen, QQuickView.setGeometry, QQuickView.setColor,
      QQuickView.setResizeMode, QQuickView.setSource, hload]
  · simp [viewOf, QQuickView.showFullScreen, QQuickView.setGeometry, QQuickView.setColor,
      QQuickView.setResizeMode, QQuickView.setSource, hload]
  · simp [viewOf, QQuickView.showFullScreen]
  · simp [viewOf, QQuickView.showFullScreen]
  · rw [entry_of_screen tk argv s hscr]
    simp [fullTrace]
  · rw [entry_of_screen tk argv s hscr, main_of_screen tk argv s hscr]
    simp [fullTrace]
  · rw [main_of_screen tk argv s hscr]

theorem valid_document_reaches_full_screen_witness :
    watchToolkit.load mainQml = some ⟨320, 320⟩ ∧
    watchToolkit.primaryScreen = some ⟨⟨0, 0, 400, 400⟩⟩ ∧
    ((∀ n f, (mainAfter n watchToolkit []).control ≠ .fault f) ∧
      (atEventLoopEntry watchToolkit []).control = .running ∧
      (∃ v, (atEventLoopEntry watchToolkit []).view = some v ∧ v.source = mainQml ∧
        v.rootObject = some ⟨320, 320⟩ ∧ v.status = .Ready ∧
        v.windowState = .WindowFullScreen ∧ v.visible = true) ∧
      (atEventLoopEntry watchToolkit []).trace.getLast? = some .showFullScreen ∧
      (main watchToolkit []).trace =
        (atEventLoopEntry watchToolkit []).trace ++ [.exec watchToolkit.exec] ∧
      (main watchToolkit []).control = .returned watchToolkit.exec) :=
  ⟨rfl, rfl, valid_document_reaches_full_screen watchToolkit [] ⟨320, 320⟩ ⟨⟨0, 0, 400, 400⟩⟩
    rfl rfl⟩

/-- Claim C5. After the identity setup (the first six statements) the
application object holds the four identity strings "Terminal", "Terminal",
"AsteroidOS", "asteroidos.org", and it holds the same four after every later
statement of `main`, in every environment. -/
theorem identity_strings_set_and_kept (tk : Toolkit) (argv : List String) (n : Nat)
    (hn : 6 ≤ n) :
    identityOf (mainAfter n tk argv) =
      some ("Terminal", "Terminal", "AsteroidOS", "asteroidos.org") := by
  obtain ⟨k, rfl⟩ := Nat.exists_eq_add_of_le hn
  rw [mainAfter_split, runStmts_keeps_identity, identityOf_after_setup]
  intro f hf m
  exact later_stmt_keeps_identity tk argv f (List.mem_of_mem_take hf) m

theorem identity_strings_set_and_kept_witness :
    6 ≤ 15 ∧
    identityOf (mainAfter 15 headlessToolkit ["terminal"]) =
      some ("Terminal", "Terminal", "AsteroidOS", "asteroidos.org") :=
  ⟨by decide, identity_strings_set_and_kept headlessToolkit ["terminal"] 15 (by decide)⟩

/-- With a primary screen `s`, the trace of toolkit operations of
`main` is exactly: set the high-DPI scaling attribute, construct the
application, set the four identity strings, construct the view, set its
source to `qrc:/main.qml`, set the resize mode, set the colour, obtain the
primary screen, read its geometry, set the window geometry, show
full-screen, run the event loop. -/
theorem main_trace_order (tk : Toolkit) (argv : List String) (s : QScreen)
    (hscr : tk.primaryScreen = some s) :
    (main tk argv).trace =
      [ .setAttribute .AA_EnableHighDpiScaling,
        .constructApplication argv,
        .setApplicationName "Terminal",
        .setApplicationDisplayName "Terminal",
        .setOrganizationName "AsteroidOS",
        .setOrganizationDomain "asteroidos.org",
        .constructView,
        .setSource ⟨"qrc:/main.qml"⟩,
        .setResizeMode .SizeRootObjectToView,
        .setColor .black,
        .primaryScreen (some s),
        .geometry s.geometry,
        .setGeometry s.geometry,
        .showFullScreen,
        .exec tk.exec ] := by
  rw [main_of_screen tk argv s hscr]
  rfl

theorem main_trace_order_witness :
    watchToolkit.primaryScreen = some ⟨⟨0, 0, 400, 400⟩⟩ ∧
    (main watchToolkit ["terminal"]).trace =
      [ .setAttribute .AA_EnableHighDpiScaling,
        .constructApplication ["terminal"],
        .setApplicationName "Terminal",
        .setApplicationDisplayName "Terminal",
        .setOrganizationName "AsteroidOS",
        .setOrganizationDomain "asteroidos.org",
        .constructView,
        .setSource ⟨"qrc:/main.qml"⟩,
        .setResizeMode .SizeRootObjectToView,
        .setColor .black,
        .primaryScreen (some ⟨⟨0, 0, 400, 400⟩⟩),
        .geometry ⟨0, 0, 400, 400⟩,
        .setGeometry ⟨0, 0, 400, 400⟩,
        .showFullScreen,
        .exec watchToolkit.exec ] :=
  ⟨rfl, main_trace_order watchToolkit ["terminal"] ⟨⟨0, 0, 400, 400⟩⟩ rfl⟩

/-- With a primary screen `s`, a run of `main` obtains the primary
screen once and reads its geometry once, both before the event loop is
entered, and assigns the window geometry once, the value assigned being the
one value read. -/
theorem screen_geometry_queried_once (tk : Toolkit) (argv : List String) (s : QScreen)
    (hscr : tk.primaryScreen = some s) :
    (main tk argv).trace.filterMap Op.queriedScreen = [some s] ∧
    (main tk argv).trace.filterMap Op.queriedGeometry = [s.geometry] ∧
    (atEventLoopEntry tk argv).trace.filterMap Op.queriedScreen = [some s] ∧
    (atEventLoopEntry tk argv).trace.filterMap Op.queriedGeometry = [s.geometry] ∧
    (main tk argv).trace.filterMap Op.assignedGeometry = [s.geometry] := by
  rw [entry_of_screen tk argv s hscr, main_of_screen tk argv s hscr]
  simp [fullTrace, Op.queriedScreen, Op.queriedGeometry, Op.assignedGeometry]

theorem screen_geometry_queried_once_witness :
    watchToolkit.primaryScreen = some ⟨⟨0, 0, 400, 400⟩⟩ ∧
    ((main watchToolkit []).trace.filterMap Op.queriedScreen = [some ⟨⟨0, 0, 400, 400⟩⟩] ∧
      (main watchToolkit []).trace.filterMap Op.queriedGeometry = [⟨0, 0, 400, 400⟩] ∧
      (atEventLoopEntry watchToolkit []).trace.filterMap Op.queriedScreen =
        [some ⟨⟨0, 0, 400, 400⟩⟩] ∧
      (atEventLoopEntry watchToolkit []).trace.filterMap Op.queriedGeometry =
        [⟨0, 0, 400, 400⟩] ∧
      (main watchToolkit []).trace.filterMap Op.assignedGeometry = [⟨0, 0, 400, 400⟩]) :=
  ⟨rfl, screen_geometry_queried_once watchToolkit [] ⟨⟨0, 0, 400, 400⟩⟩ rfl⟩

/-- Claim C4 fails on the code. On a watch where `qrc:/main.qml` loads but
`primaryScreen()` is null, the run stops with the null dereference of line 46
before `showFullScreen` and before the event loop: the view holds the loaded
document but is neither visible nor in state `FullScreen`. -/
theorem valid_document_without_screen_faults :
    headlessToolkit.load mainQml = some ⟨320, 320⟩ ∧
    headlessToolkit.primaryScreen = none ∧
    (main headlessToolkit ["terminal"]).control = .fault .nullDereference ∧
    (main headlessToolkit ["terminal"]).view.map QQuickView.rootObject =
      some (some ⟨320, 320⟩) ∧
    (main headlessToolkit ["terminal"]).view.map QQuickView.windowState =
      some .WindowNoState ∧
    (main headlessToolkit ["terminal"]).view.map QQuickView.visible = some false ∧
    Op.showFullScreen ∉ (main headlessToolkit ["terminal"]).trace ∧
    (∀ r, Op.exec r ∉ (main headlessToolkit ["terminal"]).trace) := by
  have ht : (main headlessToolkit ["terminal"]).trace =
      [ .setAttribute .AA_EnableHighDpiScaling, .constructApplication ["terminal"],
        .setApplicationName "Terminal", .setApplicationDisplayName "Terminal",
        .setOrganizationName "AsteroidOS", .setOrganizationDomain "asteroidos.org",
        .constructView, .setSource mainQml, .setResizeMode .SizeRootObjectToView,
        .setColor .black, .primaryScreen none ] := by decide
  refine ⟨rfl, rfl, rfl, by decide, by decide, by decide, ?_, ?_⟩
  · rw [ht]; decide
  · intro r
    rw [ht]
    simp

/-- Claim C9 fails on the code. In an environment without a screen,
`primaryScreen()` yields a null pointer and line 46 dereferences it: the run
stops with a null dereference right after the query, before any geometry is
assigned, and never reaches the event loop. -/
theorem null_screen_is_dereferenced :
    headlessToolkit.primaryScreen = none ∧
    (main headlessToolkit ["terminal"]).control = .fault .nullDereference ∧
    (main headlessToolkit ["terminal"]).trace.getLast? = some (.primaryScreen none) ∧
    (main headlessToolkit ["terminal"]).trace.filterMap Op.assignedGeometry = [] := by
  refine ⟨rfl, rfl, ?_, ?_⟩ <;> decide

end AsteroidTerminal
